import Mathlib

/-!
Verification of the vertualMarker Strategy-2 pipeline.

This file gives a shallow embedding, in Lean 4, of the core code of the
repository (src/vertualmarker/strategy2.py and src/vertualmarker/geometry.py)
and proves or refutes the frozen claims about it.

Modelling conventions:
* Points produced by ingestion are integer pairs (`IPoint`), matching
  `parse_txt_points`, which rounds every coordinate to `int`.
* Geometry-level points (interpolated samples, the virtual marker) are real
  pairs (`RPoint`); Python floats are modelled by real numbers.
* Fallible Python code (`raise`) is modelled with `Except PyError`.
  `PyError` has one constructor per Python exception class that the core
  raises: `Strategy2Error` and `ValueError`.
* Error-message strings are kept verbatim except that interpolated numeric
  values (f-string fields) and apostrophes are elided, since formatting of
  floats is not modelled.
* Text files are modelled as lists of `TxtLine`: a line is blank, a comment,
  or a record of numeric fields.  Python round-trips a float exactly through
  `repr`/`float`, so a written field is modelled by its numeric value.
* Seven functions that `strategy2.py` imports from `.geometry` are absent
  from the provided snapshot of `geometry.py`; each of them is defined below
  from the specification and carries a doc comment starting with
  `Modelled from the spec:`.
-/

namespace VirtualMarker

/-- Integer pixel point, the type produced by `parse_txt_points`. -/
abbrev IPoint : Type := ℤ × ℤ

/-- Real-valued point, the type used by the geometry module. -/
abbrev RPoint : Type := ℝ × ℝ

/-- Cast an integer point into the real plane. -/
def toR (p : IPoint) : RPoint := ((p.1 : ℝ), (p.2 : ℝ))

/-- Errors raised by the core: `Strategy2Error` (strategy2.py) and
`ValueError` (geometry.py and list operations). -/
inductive PyError : Type
  | strategy2Error (msg : String)
  | valueError (msg : String)
  deriving DecidableEq, Repr

/-- One line of a TXT file: blank, a `#` comment, or a record of numeric
fields (fields are modelled by their numeric values). -/
inductive TxtLine : Type
  | blank
  | comment
  | record (fields : List ℝ)

/-- Configuration record `Strategy2Config` from strategy2.py. -/
structure Strategy2Config : Type where
  FH : ℝ
  UH : ℝ
  SX : ℝ
  SY : ℝ
  PBL : ℤ
  sampleStep : ℝ

/-- A diagnostic finding (`DiagnosticItem` in strategy2.py). -/
structure DiagnosticItem : Type where
  severity : String
  message : String
  point : Option IPoint
  deriving DecidableEq

/-- Result aggregate `Strategy2Result` from strategy2.py. -/
structure Strategy2Result : Type where
  tlsp : IPoint
  turtleLinePath : List IPoint
  frontHeadRun : List IPoint
  upperHeadRun : List IPoint
  mv : RPoint
  mvShifted : IPoint
  bsp : IPoint
  bendingPoints : List RPoint
  turtleLowestPoint : IPoint
  turtleLineLength : ℕ
  longestTwoLinesInfo : List (IPoint × ℕ)
  longestTwoComponents : List (List IPoint)
  diagnostics : List DiagnosticItem

/-- Python `int(round(x))` on a float: round half to even, then truncate
(identity on integers).  `round` in Python 3 rounds ties to the nearest
even integer. -/
noncomputable def pyRound (x : ℝ) : ℤ :=
  if Int.fract x = 1 / 2 then (if Even ⌊x⌋ then ⌊x⌋ else ⌊x⌋ + 1) else round x

/-- Python `int(x)` on a float: truncation toward zero. -/
noncomputable def pyInt (x : ℝ) : ℤ :=
  if 0 ≤ x then ⌊x⌋ else ⌈x⌉

/-- Python `list.index(a)`: position of the first occurrence, or a
`ValueError` when the element is absent. -/
def pyIndex (l : List IPoint) (a : IPoint) : Except PyError ℕ :=
  if a ∈ l then .ok (l.indexOf a) else .error (.valueError "x not in list")

/-- Python `max(l, key=lambda p: p[1])` on a nonempty list: the first
element attaining the maximal y.  The default for `[]` is never used by the
code (Python would raise); callers only pass nonempty lists. -/
def maxByY : List IPoint → IPoint
  | [] => (0, 0)
  | h :: t => t.foldl (fun best p => if p.2 > best.2 then p else best) h

/-! ### geometry.py (functions present in the source snapshot) -/

/-- Euclidean distance `math.hypot` between two points
(`distance` in geometry.py). -/
noncomputable def distR (p q : RPoint) : ℝ :=
  Real.sqrt ((p.1 - q.1) ^ 2 + (p.2 - q.2) ^ 2)

/-- A segment is a pair (start, end); `build_segments` pairs consecutive
vertices of a polyline. -/
def buildSegments (pts : List RPoint) : List (RPoint × RPoint) :=
  pts.zip pts.tail

/-- Length of a segment (`Segment.length` in geometry.py). -/
noncomputable def segLength (s : RPoint × RPoint) : ℝ :=
  Real.sqrt ((s.2.1 - s.1.1) ^ 2 + (s.2.2 - s.1.2) ^ 2)

/-- Total arc length of a polyline, as summed by `sample_along_polyline`. -/
noncomputable def totalSegLength (pts : List RPoint) : ℝ :=
  ((buildSegments pts).map segLength).sum

/-- Linear interpolation on a segment (`interpolate` in
`sample_along_polyline`). -/
def lerpSeg (s : RPoint × RPoint) (t : ℝ) : RPoint :=
  (s.1.1 + (s.2.1 - s.1.1) * t, s.1.2 + (s.2.2 - s.1.2) * t)

/-- The sub-path walked by `sample_along_polyline`: starting vertex plus all
following (forward) or all preceding (backward) vertices, in walk order. -/
def dirSubPath (points : List RPoint) (startIndex : ℕ) (forward : Bool) :
    List RPoint :=
  if forward then points.drop startIndex
  else (points.take (startIndex + 1)).reverse

/-- The per-sample walk of `sample_along_polyline`: consume segments while
the remaining target distance strictly exceeds the segment length, then
interpolate; an exhausted segment list clamps to the final vertex, and a
zero-length segment yields its end vertex. -/
noncomputable def walkSegs : List (RPoint × RPoint) → ℝ → RPoint → RPoint
  | [], _, lastP => lastP
  | s :: rest, remaining, lastP =>
    if remaining > segLength s then walkSegs rest (remaining - segLength s) lastP
    else if segLength s = 0 then s.2
    else lerpSeg s (remaining / segLength s)

/-- `sample_along_polyline` from geometry.py: sample `numSamples` points at
arc-length offsets `0, step, 2*step, ...` along the sub-path of `points`
that starts at `startIndex` and runs in the requested direction. -/
noncomputable def sampleAlongPolyline (points : List RPoint) (startIndex : ℕ)
    (numSamples : ℤ) (step : ℝ) (forward : Bool) :
    Except PyError (List RPoint) :=
  if points.isEmpty then .error (.valueError "Polyline is empty")
  else if numSamples ≤ 0 then .ok []
  else
    let path := dirSubPath points startIndex forward
    if path.length < 2 then
      .error (.valueError "Not enough length on turtle line in requested direction.")
    else
      let totalLen := totalSegLength path
      let requiredLen := step * ((numSamples : ℝ) - 1)
      if totalLen < requiredLen then
        .error (.valueError "Polyline length is shorter than required.")
      else
        .ok ((List.range numSamples.toNat).map
          (fun n : ℕ => walkSegs (buildSegments path) ((n : ℝ) * step)
            (path.getLastD (0, 0))))

/-! ### geometry.py (functions absent from the source snapshot) -/

/-- Modelled from the spec: `get_neighbors` is missing from the snapshot of
geometry.py.  Section 3 defines adjacency as the 8-neighborhood
(`|dx| <= 1`, `|dy| <= 1`, not both zero); the neighbors of `p` that are
present in the point set, in a fixed deterministic offset order. -/
def getNeighbors (p : IPoint) (s : List IPoint) : List IPoint :=
  ([(-1, -1), (-1, 0), (-1, 1), (0, -1), (0, 1), (1, -1), (1, 0), (1, 1)] :
      List (ℤ × ℤ)).filterMap
    (fun d =>
      let q : IPoint := (p.1 + d.1, p.2 + d.2)
      if q ∈ s then some q else none)

/-- Breadth-first collection of the component of a seed point: pop the queue
head, enqueue unseen neighbors, and record them as seen, with fuel bounding
the iteration count. -/
def bfsComponent (s : List IPoint) :
    ℕ → List IPoint → List IPoint → List IPoint
  | 0, _, seen => seen
  | _ + 1, [], seen => seen
  | fuel + 1, q :: qs, seen =>
    let ns := (getNeighbors q s).filter (fun n => ¬ seen.contains n)
    bfsComponent s fuel (qs ++ ns) (seen ++ ns)

/-- Seed loop of the component builder: iterate input points in order,
starting a breadth-first traversal at every point not yet visited. -/
def ccSeedLoop (points : List IPoint) :
    List IPoint → List IPoint → List (List IPoint)
  | [], _ => []
  | p :: rest, visited =>
    if visited.contains p then ccSeedLoop points rest visited
    else
      let comp := bfsComponent points (points.length + 1) [p] [p]
      comp :: ccSeedLoop points rest (visited ++ comp)

/-- Modelled from the spec: `find_connected_components` is missing from the
snapshot of geometry.py.  Section 4.1: partition the points into
8-connected components by breadth-first traversal, seeding new components
in input order. -/
def findConnectedComponents (points : List IPoint) : List (List IPoint) :=
  ccSeedLoop points points []

/-- Modelled from the spec: `find_endpoints` is missing from the snapshot of
geometry.py.  Section 4.3 step 1: structural endpoints are the points with
exactly one 8-neighbor inside the component. -/
def findEndpoints (component : List IPoint) : List IPoint :=
  component.filter (fun p => (getNeighbors p component).length = 1)

/-- Maximal runs of consecutive path points agreeing on a coordinate
projection, in path order. -/
def coordRuns (proj : IPoint → ℤ) : List IPoint → List (List IPoint)
  | [] => []
  | p :: rest =>
    match coordRuns proj rest with
    | [] => [[p]]
    | g :: gs =>
      match g with
      | [] => [p] :: gs
      | q :: _ => if proj p = proj q then (p :: g) :: gs else [p] :: g :: gs

/-- Modelled from the spec: `find_first_vertical_run` is missing from the
snapshot of geometry.py.  Section 4.4: the first contiguous run of at least
`k` points on the path that is vertical (the call site passes no angle
tolerance, so vertical means constant x); the empty list signals that no
qualifying run exists. -/
def findFirstVerticalRun (path : List IPoint) (k : ℤ) : List IPoint :=
  ((coordRuns (fun p => p.1) path).find? (fun g => k ≤ (g.length : ℤ))).getD []

/-- Modelled from the spec: `find_first_horizontal_run` is missing from the
snapshot of geometry.py.  Section 4.4: the first contiguous run of at least
`k` points with constant y; the empty list signals that no qualifying run
exists. -/
def findFirstHorizontalRun (path : List IPoint) (k : ℤ) : List IPoint :=
  ((coordRuns (fun p => p.2) path).find? (fun g => k ≤ (g.length : ℤ))).getD []

/-- Modelled from the spec: `compute_line_intersection` is missing from the
snapshot of geometry.py.  Section 4.5: Mv is the intersection of the
vertical line `x = mean of the x of the FH run endpoints` with the
horizontal line `y = mean of the y of the UH run endpoints`. -/
noncomputable def computeLineIntersection (fh uh : List IPoint) : RPoint :=
  ((((fh.headD (0, 0)).1 : ℝ) + ((fh.getLastD (0, 0)).1 : ℝ)) / 2,
   (((uh.headD (0, 0)).2 : ℝ) + ((uh.getLastD (0, 0)).2 : ℝ)) / 2)

/-- Modelled from the spec: `sample_path_at_intervals` is missing from the
snapshot of geometry.py.  Section 4.6: resample the chosen sub-path as a
polyline at arc-length offsets `0, step, ..., (count-1)*step` by linear
interpolation, failing when the sub-path is too short; this is exactly the
forward sampling of `sample_along_polyline`. -/
noncomputable def samplePathAtIntervals (path : List IPoint) (start : ℕ)
    (count : ℤ) (step : ℝ) : Except PyError (List RPoint) :=
  sampleAlongPolyline (path.map toR) start count step true

/-! ### strategy2.py -/

/-- The filtering pass of `parse_txt_points`: skip blank and comment lines
and records with fewer than two fields; round the first two fields of every
remaining record to integers, in input order. -/
noncomputable def extractRecords (ls : List TxtLine) : List IPoint :=
  ls.foldl
    (fun acc line =>
      match line with
      | .blank => acc
      | .comment => acc
      | .record fields =>
        match fields with
        | x :: y :: _ => acc ++ [(pyRound x, pyRound y)]
        | _ => acc)
    []

/-- `parse_txt_points` from strategy2.py: extract the points of a TXT file
and fail with `Strategy2Error` when no valid record was found. -/
noncomputable def parseTxtPoints (ls : List TxtLine) :
    Except PyError (List IPoint) :=
  let points := extractRecords ls
  if points.isEmpty then
    .error (.strategy2Error "No valid coordinates were found in the input TXT file.")
  else .ok points

/-- Python descending order on `(length, index)` pairs, as used by
`lengths.sort(reverse=True)` in `pick_two_longest_lines`:
`a` precedes `b` when `a` is lexicographically at least `b`. -/
def pairDescRel (a b : ℕ × ℕ) : Prop :=
  b.1 < a.1 ∨ (b.1 = a.1 ∧ b.2 ≤ a.2)

instance : DecidableRel pairDescRel := fun a b => by
  unfold pairDescRel; infer_instance

instance : IsTotal (ℕ × ℕ) pairDescRel :=
  ⟨fun a b => by unfold pairDescRel; omega⟩

instance : IsTrans (ℕ × ℕ) pairDescRel :=
  ⟨fun a b c hab hbc => by unfold pairDescRel at hab hbc ⊢; omega⟩

/-- The list comprehension `[(len(comp), i) for i, comp in
enumerate(components)]`, with indices starting at `i0`. -/
def lensEnum : List (List IPoint) → ℕ → List (ℕ × ℕ)
  | [], _ => []
  | c :: t, i0 => (c.length, i0) :: lensEnum t (i0 + 1)

/-- `pick_two_longest_lines` from strategy2.py: fail unless at least two
components exist, sort the `(point count, index)` pairs in descending
lexicographic order (Python `sort(reverse=True)` on tuples), and return the
components at the two leading indices. -/
def pickTwoLongestLines (components : List (List IPoint)) :
    Except PyError (List IPoint × List IPoint) :=
  if components.length < 2 then
    .error (.strategy2Error "At least two connected line components are required.")
  else
    match (lensEnum components 0).insertionSort pairDescRel with
    | p1 :: p2 :: _ =>
      .ok (components.getD p1.2 [], components.getD p2.2 [])
    | _ => .error (.strategy2Error "At least two connected line components are required.")

/-- Python stable descending order by length, as used by
`sorted(components, key=len, reverse=True)`: `a` precedes `b` when the
length of `a` is at least the length of `b`. -/
def lenDescRel (a b : List IPoint) : Prop :=
  b.length ≤ a.length

instance : DecidableRel lenDescRel := fun a b => by
  unfold lenDescRel; infer_instance

instance : IsTotal (List IPoint) lenDescRel :=
  ⟨fun a b => by unfold lenDescRel; omega⟩

instance : IsTrans (List IPoint) lenDescRel :=
  ⟨fun a b c hab hbc => by unfold lenDescRel at hab hbc ⊢; omega⟩

/-- `summarize_longest_two_lines` from strategy2.py: the
(lowest point, point count) pairs of the two longest components, ranked by
Python's stable descending sort on length. -/
def summarizeLongestTwoLines (components : List (List IPoint)) :
    List (IPoint × ℕ) :=
  if components.isEmpty then []
  else
    ((components.insertionSort lenDescRel).take 2).map
      (fun comp => (maxByY comp, comp.length))

/-- `pick_longest_components` from strategy2.py: the top `count` components
under Python's stable descending sort on length. -/
def pickLongestComponents (components : List (List IPoint)) (count : ℕ) :
    List (List IPoint) :=
  if components.isEmpty then []
  else (components.insertionSort lenDescRel).take count

/-- `find_turtle_line` from strategy2.py: of two components, the one whose
lowest point (maximal y) is lower (ties keep the first). -/
def findTurtleLine (comp1 comp2 : List IPoint) : List IPoint :=
  if (maxByY comp1).2 ≥ (maxByY comp2).2 then comp1 else comp2

/-- Breadth-first parent map construction for
`_shortest_path_in_component`: pop the queue head, stop at the end point,
record parents of unseen neighbors, with fuel bounding iteration. -/
def bfsParentLoop (s : List IPoint) (endP : IPoint) :
    ℕ → List IPoint → List (IPoint × Option IPoint) →
      List (IPoint × Option IPoint)
  | 0, _, pm => pm
  | _ + 1, [], pm => pm
  | fuel + 1, cur :: qs, pm =>
    if cur = endP then pm
    else
      let ns := (getNeighbors cur s).filter (fun n => (pm.lookup n).isNone)
      bfsParentLoop s endP fuel (qs ++ ns) (pm ++ ns.map (fun n => (n, some cur)))

/-- Follow the parent map back from the end point, producing the path in
start-to-end order (the code builds it reversed and reverses it). -/
def backtrackParents (pm : List (IPoint × Option IPoint)) :
    ℕ → IPoint → List IPoint → List IPoint
  | 0, _, acc => acc
  | fuel + 1, cur, acc =>
    match pm.lookup cur with
    | some (some par) => backtrackParents pm fuel par (cur :: acc)
    | _ => cur :: acc

/-- `_shortest_path_in_component` from strategy2.py: breadth-first shortest
path between two points of a component, or `[]` when unreachable. -/
def shortestPathInComponent (component : List IPoint) (start endP : IPoint) :
    List IPoint :=
  if start = endP then [start]
  else if ¬ component.contains start ∨ ¬ component.contains endP then []
  else
    let pm := bfsParentLoop component endP (component.length + 1) [start]
      [(start, none)]
    if (pm.lookup endP).isNone then []
    else backtrackParents pm (component.length + 1) endP []

/-- Breadth-first loop of `_farthest_point_by_steps`: track the visited
point of maximal hop distance, ties preferring larger y. -/
def bfsFarLoop (s : List IPoint) :
    ℕ → List IPoint → List (IPoint × ℕ) → IPoint → IPoint
  | 0, _, _, far => far
  | _ + 1, [], _, far => far
  | fuel + 1, cur :: qs, dm, far =>
    let dc := ((dm.lookup cur).getD 0)
    let df := ((dm.lookup far).getD 0)
    let far' :=
      if dc > df then cur
      else if dc = df ∧ cur.2 > far.2 then cur
      else far
    let ns := (getNeighbors cur s).filter (fun n => (dm.lookup n).isNone)
    bfsFarLoop s fuel (qs ++ ns) (dm ++ ns.map (fun n => (n, dc + 1))) far'

/-- `_farthest_point_by_steps` from strategy2.py. -/
def farthestPointBySteps (component : List IPoint) (start : IPoint) : IPoint :=
  if ¬ component.contains start then start
  else bfsFarLoop component (component.length + 1) [start] [(start, 0)] start

/-- One step of the greedy walk of `_build_ordered_path`: with several
unvisited neighbors, prefer one continuing the previous direction,
otherwise the first. -/
def greedyNext (path : List IPoint) (current : IPoint)
    (unvisited : List IPoint) : IPoint :=
  match unvisited with
  | [] => current
  | [n] => n
  | n :: _ =>
    if path.length ≥ 2 then
      let lastP := path.getLastD current
      let prevP := path.dropLast.getLastD current
      let prevDir : ℤ × ℤ := (lastP.1 - prevP.1, lastP.2 - prevP.2)
      match unvisited.filter
          (fun m => (m.1 - current.1, m.2 - current.2) = prevDir) with
      | [] => n
      | d :: _ => d
    else n

/-- Greedy walk loop of `_build_ordered_path`, with fuel bounding
iteration. -/
def greedyWalk (s : List IPoint) :
    ℕ → List IPoint → List IPoint → IPoint → List IPoint
  | 0, path, _, _ => path
  | fuel + 1, path, visited, current =>
    let unvisited :=
      (getNeighbors current s).filter (fun n => ¬ visited.contains n)
    if unvisited.isEmpty then path
    else
      let nextP := greedyNext path current unvisited
      greedyWalk s fuel (path ++ [nextP]) (visited ++ [nextP]) nextP

/-- `_build_ordered_path` from strategy2.py. -/
def buildOrderedPath (component : List IPoint) (start : IPoint) :
    List IPoint :=
  greedyWalk component (component.length + 1) [start] [start] start

/-- `find_tlsp` from strategy2.py: choose TLSP (bottommost endpoint, else
bottommost point), build the path to the farthest endpoint via
breadth-first shortest paths, fall back to the greedy ordered walk, and
fail when even the fallback path has fewer than two points. -/
def findTlsp (turtleComponent : List IPoint) :
    Except PyError (IPoint × List IPoint) :=
  let maxYPoint := maxByY turtleComponent
  let maxY := maxYPoint.2
  let endpoints := findEndpoints turtleComponent
  let tlsp :=
    if ¬ endpoints.isEmpty then
      match endpoints.filter (fun ep => ep.2 = maxY) with
      | t :: _ => t
      | [] => maxByY endpoints
    else maxYPoint
  let otherEndpoints := endpoints.filter (fun ep => ep ≠ tlsp)
  let path :=
    if ¬ otherEndpoints.isEmpty then
      otherEndpoints.foldl
        (fun best ep =>
          let candidate := shortestPathInComponent turtleComponent tlsp ep
          if candidate.length > best.length then candidate else best)
        []
    else
      shortestPathInComponent turtleComponent tlsp
        (farthestPointBySteps turtleComponent tlsp)
  let path' := if path.length < 2 then buildOrderedPath turtleComponent tlsp
    else path
  if path'.length < 2 then
    .error (.strategy2Error "Turtle-line path is too short.")
  else .ok (tlsp, path')

/-- `find_front_head_and_upper_head` from strategy2.py: the first vertical
run of at least `int(fh)` points, then the first horizontal run of at least
`int(uh)` points strictly after it; each absence is a `Strategy2Error`. -/
noncomputable def findFrontHeadAndUpperHead (path : List IPoint)
    (fh uh : ℝ) : Except PyError (List IPoint × List IPoint) :=
  let frontHead := findFirstVerticalRun path (pyInt fh)
  if frontHead.isEmpty then
    .error (.strategy2Error "Unable to find a vertical segment satisfying FH.")
  else
    match pyIndex path (frontHead.getLastD (0, 0)) with
    | .error e => .error e
    | .ok frontHeadEndIdx =>
      let remainingPath := path.drop (frontHeadEndIdx + 1)
      let upperHead := findFirstHorizontalRun remainingPath (pyInt uh)
      if upperHead.isEmpty then
        .error (.strategy2Error "Unable to find a horizontal segment satisfying UH.")
      else .ok (frontHead, upperHead)

/-- `compute_mv` from strategy2.py. -/
noncomputable def computeMv (frontHead upperHead : List IPoint) : RPoint :=
  computeLineIntersection frontHead upperHead

/-- `find_bsp` from strategy2.py: the first path point of minimal Euclidean
distance to the shifted marker (Python `min` keeps the first minimum). -/
noncomputable def findBsp (turtlePath : List IPoint) (mvShifted : IPoint) :
    Except PyError IPoint :=
  match turtlePath with
  | [] => .error (.strategy2Error "Turtle-line path is empty.")
  | h :: t =>
    .ok (t.foldl
      (fun best p =>
        if distR (toR p) (toR mvShifted) < distR (toR best) (toR mvShifted)
        then p else best)
      h)

/-- The sampling-path selection of `run_strategy2_on_points` (step 9):
from the BSP index, move away from the TLSP index; on coincidence take the
side with at least as many remaining points, preferring increasing
indices. -/
def chooseSamplingPath (turtlePath : List IPoint) (bspIdx tlspIdx : ℕ) :
    List IPoint :=
  if bspIdx < tlspIdx then (turtlePath.take (bspIdx + 1)).reverse
  else if bspIdx > tlspIdx then turtlePath.drop bspIdx
  else if turtlePath.length - bspIdx ≥ bspIdx + 1 then turtlePath.drop bspIdx
  else (turtlePath.take (bspIdx + 1)).reverse

/-- The diagnostics block of `run_strategy2_on_points` (its final stage):
distance rule (critical, else warning), FH and UH boundary rules, short
turtle-path rule, and a synthesized all-clear info entry when no rule
fired. -/
noncomputable def buildDiagnostics (cfg : Strategy2Config)
    (bsp mvShifted : IPoint) (frontHead upperHead turtlePath : List IPoint)
    (turtleLowestPoint : IPoint) : List DiagnosticItem :=
  let bspMvDist := distR (toR bsp) (toR mvShifted)
  let warnDistance := max 12 (cfg.sampleStep * 15)
  let criticalDistance := max 20 (cfg.sampleStep * 30)
  let distDiags : List DiagnosticItem :=
    if bspMvDist ≥ criticalDistance then
      [⟨"critical",
        "Mv to BSP distance is too large. This indicates initial alignment drift from intended behavior.",
        some bsp⟩]
    else if bspMvDist ≥ warnDistance then
      [⟨"warning",
        "Mv to BSP distance is above the preferred range. Check SX/SY and segment thresholds.",
        some bsp⟩]
    else []
  let fhDiags : List DiagnosticItem :=
    if (frontHead.length : ℤ) ≤ pyInt cfg.FH then
      [⟨"warning",
        "FH run is at threshold boundary. Consider increasing edge quality or lowering FH slightly.",
        frontHead.head?⟩]
    else []
  let uhDiags : List DiagnosticItem :=
    if (upperHead.length : ℤ) ≤ pyInt cfg.UH then
      [⟨"warning",
        "UH run is at threshold boundary. Consider increasing edge quality or lowering UH slightly.",
        upperHead.head?⟩]
    else []
  let pathDiags : List DiagnosticItem :=
    if (turtlePath.length : ℤ) < max cfg.PBL 100 then
      [⟨"warning",
        "Turtle path is relatively short versus requested trajectory length. Tail region may be repeated.",
        some turtleLowestPoint⟩]
    else []
  let diags := distDiags ++ fhDiags ++ uhDiags ++ pathDiags
  if diags.isEmpty then
    [⟨"info", "Auto diagnostics: no critical or warning issues detected.", none⟩]
  else diags

/-- `run_strategy2_on_points` from strategy2.py: the full pipeline on a
point set. -/
noncomputable def runStrategy2OnPoints (points : List IPoint)
    (cfg : Strategy2Config) : Except PyError Strategy2Result :=
  let components := findConnectedComponents points
  let longestTwoInfo := summarizeLongestTwoLines components
  let longestTwoComponents := pickLongestComponents components 2
  match pickTwoLongestLines components with
  | .error e => .error e
  | .ok (comp1, comp2) =>
    let turtleComponent := findTurtleLine comp1 comp2
    let turtleLowestPoint := maxByY turtleComponent
    match findTlsp turtleComponent with
    | .error e => .error e
    | .ok (tlsp, turtlePath) =>
      match findFrontHeadAndUpperHead turtlePath cfg.FH cfg.UH with
      | .error e => .error e
      | .ok (frontHead, upperHead) =>
        let mv := computeMv frontHead upperHead
        let mvShifted : IPoint :=
          (pyRound (mv.1 + cfg.SX), pyRound (mv.2 + cfg.SY))
        match findBsp turtlePath mvShifted with
        | .error e => .error e
        | .ok bsp =>
          match pyIndex turtlePath bsp with
          | .error e => .error e
          | .ok bspIdx =>
            match pyIndex turtlePath tlsp with
            | .error e => .error e
            | .ok tlspIdx =>
              let samplingPath := chooseSamplingPath turtlePath bspIdx tlspIdx
              match samplePathAtIntervals samplingPath 0 cfg.PBL
                  cfg.sampleStep with
              | .error e => .error e
              | .ok bendingPoints =>
                .ok
                  { tlsp := tlsp
                    turtleLinePath := turtlePath
                    frontHeadRun := frontHead
                    upperHeadRun := upperHead
                    mv := mv
                    mvShifted := mvShifted
                    bsp := bsp
                    bendingPoints := bendingPoints
                    turtleLowestPoint := turtleLowestPoint
                    turtleLineLength := turtlePath.length
                    longestTwoLinesInfo := longestTwoInfo
                    longestTwoComponents := longestTwoComponents
                    diagnostics :=
                      buildDiagnostics cfg bsp mvShifted frontHead upperHead
                        turtlePath turtleLowestPoint }

/-- `save_result_points_txt` from strategy2.py: a header comment line, then
one record `x,y,index` per bending point with `index` running from 1. -/
def saveResultPointsTxt (result : Strategy2Result) : List TxtLine :=
  TxtLine.comment ::
    result.bendingPoints.enum.map
      (fun ip => TxtLine.record [ip.2.1, ip.2.2, ((ip.1 + 1 : ℕ) : ℝ)])

/-! ### Module-level names, for the import claim -/

/-- The names that strategy2.py imports from the geometry module
(strategy2.py lines 13-23). -/
def strategy2GeometryImports : List String :=
  ["Point", "compute_line_intersection", "distance",
   "find_connected_components", "find_endpoints",
   "find_first_horizontal_run", "find_first_vertical_run",
   "get_neighbors", "sample_path_at_intervals"]

/-- The names defined at top level in the geometry module: those visible in
the source snapshot of geometry.py, together with the seven functions that
the snapshot omits and this file models from the spec. -/
def geometryModuleDefs : List String :=
  ["Point", "Segment", "distance", "polyline_length", "build_segments",
   "find_closest_point_on_polyline", "sample_along_polyline",
   "get_neighbors", "find_connected_components", "find_endpoints",
   "find_first_vertical_run", "find_first_horizontal_run",
   "compute_line_intersection", "sample_path_at_intervals"]

/-- The record-to-point projection performed by `parse_txt_points` on a
single line: the first two numeric fields of a record, rounded. -/
noncomputable def recordPoint : TxtLine → Option IPoint
  | .record (x :: y :: _) => some (pyRound x, pyRound y)
  | _ => none

/-- Concrete successful-result aggregate whose trajectory holds the single
fractional bending point `(1/2, 0)`; linear interpolation at half-pixel
steps produces exactly such coordinates. -/
noncomputable def c6CexResult : Strategy2Result where
  tlsp := (0, 0)
  turtleLinePath := []
  frontHeadRun := []
  upperHeadRun := []
  mv := (0, 0)
  mvShifted := (0, 0)
  bsp := (0, 0)
  bendingPoints := [((1 : ℝ) / 2, 0)]
  turtleLowestPoint := (0, 0)
  turtleLineLength := 0
  longestTwoLinesInfo := []
  longestTwoComponents := []
  diagnostics := []

/-- Concrete successful-result aggregate with the integer bending points
`(1, 2)` and `(3, 4)`. -/
noncomputable def c6WitnessResult : Strategy2Result where
  tlsp := (0, 0)
  turtleLinePath := []
  frontHeadRun := []
  upperHeadRun := []
  mv := (0, 0)
  mvShifted := (0, 0)
  bsp := (0, 0)
  bendingPoints := [((1 : ℝ), 2), (3, 4)]
  turtleLowestPoint := (0, 0)
  turtleLineLength := 0
  longestTwoLinesInfo := []
  longestTwoComponents := []
  diagnostics := []

/-- Configuration of the distance-scenario: FH = UH = 1, no shift,
PBL = 1, sample step 1. -/
def c5Cfg : Strategy2Config where
  FH := 1
  UH := 1
  SX := 0
  SY := 0
  PBL := 1
  sampleStep := 1

/-- Horizontal stretch of one hundred path points. -/
def c5Path : List IPoint :=
  (List.range 100).map (fun i : ℕ => ((i : ℤ), (0 : ℤ)))

/-! ### Helper lemmas -/

theorem pyRound_intCast (a : ℤ) : pyRound (a : ℝ) = a := by
  unfold pyRound
  rw [Int.fract_intCast]
  norm_num

theorem pyRound_zero : pyRound (0 : ℝ) = 0 := by
  rw [show (0 : ℝ) = ((0 : ℤ) : ℝ) by norm_num, pyRound_intCast]

theorem pyRound_one : pyRound (1 : ℝ) = 1 := by
  rw [show (1 : ℝ) = ((1 : ℤ) : ℝ) by norm_num, pyRound_intCast]

theorem pyRound_half : pyRound ((1 : ℝ) / 2) = 0 := by
  unfold pyRound
  have hfract : Int.fract ((1 : ℝ) / 2) = 1 / 2 :=
    Int.fract_eq_self.mpr (by constructor <;> norm_num)
  have hfloor : ⌊(1 : ℝ) / 2⌋ = 0 := by
    rw [Int.floor_eq_zero_iff]
    constructor <;> norm_num
  rw [hfract, if_pos rfl, hfloor, if_pos even_zero]

theorem pyRound_inv_two : pyRound ((2 : ℝ)⁻¹) = 0 := by
  rw [show ((2 : ℝ)⁻¹) = (1 : ℝ) / 2 by norm_num]
  exact pyRound_half

theorem extractRecords_go (ls : List TxtLine) :
    ∀ acc : List IPoint,
      ls.foldl
        (fun acc line =>
          match line with
          | .blank => acc
          | .comment => acc
          | .record fields =>
            match fields with
            | x :: y :: _ => acc ++ [(pyRound x, pyRound y)]
            | _ => acc)
        acc = acc ++ ls.filterMap recordPoint := by
  induction ls with
  | nil => intro acc; simp
  | cons line rest ih =>
    intro acc
    cases line with
    | blank => simpa [recordPoint] using ih acc
    | comment => simpa [recordPoint] using ih acc
    | record fields =>
      match fields with
      | [] => simpa [recordPoint] using ih acc
      | [x] => simpa [recordPoint] using ih acc
      | x :: y :: r => simp [recordPoint, ih]

theorem extractRecords_eq_filterMap (ls : List TxtLine) :
    extractRecords ls = ls.filterMap recordPoint := by
  unfold extractRecords
  simpa using extractRecords_go ls []

/-! ### Claim C1 -/

/-- C1: every name that strategy2.py imports from the geometry module is
among the names defined by the geometry module (the source snapshot plus
the spec-modelled functions), so the pipeline can load and execute. -/
theorem c1_geometry_imports_defined :
    strategy2GeometryImports.all (fun n => geometryModuleDefs.contains n) =
      true := by decide

/-! ### Claim C2 -/

/-- C2 counterexample: two different failure conditions — fewer than two
connected components, and zero valid input records — both raise the same
error type `Strategy2Error` (differing only in message), so a caller cannot
distinguish the failure conditions by type. -/
theorem c2_single_error_type_cex :
    pickTwoLongestLines [] =
      .error (.strategy2Error "At least two connected line components are required.") ∧
    parseTxtPoints [] =
      .error (.strategy2Error "No valid coordinates were found in the input TXT file.") := by
  constructor
  · rfl
  · unfold parseTxtPoints extractRecords
    simp

/-! ### Claim C3 -/

/-- C3 counterexample: at the polyline `[(0,0),(1,0)]` with start index 1,
one requested sample, step 1 and the forward direction, the sub-path has a
single vertex and total arc length 0, which is not shorter than
`(1-1)*1 = 0`, yet `sample_along_polyline` raises an error — so the error
is not raised exactly when the sub-path is shorter than
`(num_samples-1)*step`. -/
theorem c3_error_iff_cex :
    sampleAlongPolyline [((0 : ℝ), 0), (1, 0)] 1 1 1 true =
      .error (.valueError "Not enough length on turtle line in requested direction.") ∧
    ¬ totalSegLength (dirSubPath [((0 : ℝ), 0), (1, 0)] 1 true) <
        1 * (((1 : ℤ) : ℝ) - 1) := by
  constructor
  · unfold sampleAlongPolyline dirSubPath
    norm_num
  · unfold totalSegLength dirSubPath buildSegments
    norm_num

/-- C3 (amended): under the claim's preconditions, `sample_along_polyline`
raises an error exactly when the chosen sub-path has fewer than two
vertices or its total arc length is shorter than `(num_samples-1)*step`;
the insufficient-path-length error specifically is raised exactly when the
sub-path has at least two vertices and is too short; and every success
returns exactly `num_samples` points. -/
theorem c3_sample_error_characterization
    (points : List RPoint) (startIndex : ℕ) (numSamples : ℤ) (step : ℝ)
    (forward : Bool) (hne : points ≠ [])
    (hstart : startIndex < points.length)
    (hstep : 0 < step) (hn : 1 ≤ numSamples) :
    ((∃ e, sampleAlongPolyline points startIndex numSamples step forward =
        .error e) ↔
      (dirSubPath points startIndex forward).length < 2 ∨
        totalSegLength (dirSubPath points startIndex forward) <
          step * ((numSamples : ℝ) - 1)) ∧
    (sampleAlongPolyline points startIndex numSamples step forward =
        .error (.valueError "Polyline length is shorter than required.") ↔
      2 ≤ (dirSubPath points startIndex forward).length ∧
        totalSegLength (dirSubPath points startIndex forward) <
          step * ((numSamples : ℝ) - 1)) ∧
    (∀ ys, sampleAlongPolyline points startIndex numSamples step forward =
        .ok ys → (ys.length : ℤ) = numSamples) := by
  have hempty : points.isEmpty = false := by
    simpa [List.isEmpty_iff] using hne
  have hn0 : ¬ numSamples ≤ 0 := by omega
  unfold sampleAlongPolyline
  rw [hempty]
  simp only [Bool.false_eq_true, if_false, if_neg hn0]
  by_cases hlen : (dirSubPath points startIndex forward).length < 2
  · rw [if_pos hlen]
    refine ⟨⟨fun _ => Or.inl hlen, fun _ => ⟨_, rfl⟩⟩, ?_, ?_⟩
    · constructor
      · intro h
        exact absurd (Except.error.inj h) (by simp)
      · intro ⟨h2, _⟩
        omega
    · intro ys hys
      exact absurd hys (by simp)
  · rw [if_neg hlen]
    by_cases hshort : totalSegLength (dirSubPath points startIndex forward) <
        step * ((numSamples : ℝ) - 1)
    · rw [if_pos hshort]
      refine ⟨⟨fun _ => Or.inr hshort, fun _ => ⟨_, rfl⟩⟩,
        ⟨fun _ => ⟨by omega, hshort⟩, fun _ => rfl⟩, ?_⟩
      intro ys hys
      exact absurd hys (by simp)
    · rw [if_neg hshort]
      refine ⟨⟨?_, ?_⟩, ⟨?_, ?_⟩, ?_⟩
      · intro ⟨e, he⟩
        exact absurd he (by simp)
      · intro h
        rcases h with h | h
        · omega
        · exact absurd h hshort
      · intro h
        exact absurd h (by simp)
      · intro ⟨_, h⟩
        exact absurd h hshort
      · intro ys hys
        have h1 := Except.ok.inj hys
        subst h1
        rw [List.length_map, List.length_range]
        omega

/-- C3 witness: the amended characterization applied to the concrete
polyline `[(0,0),(2,0)]`, start index 0, one sample, step 1, forward. -/
theorem c3_witness :
    (([((0 : ℝ), 0), (2, 0)] : List RPoint) ≠ [] ∧ 0 < (1 : ℝ) ∧
      (1 : ℤ) ≤ 1) ∧
    (((∃ e, sampleAlongPolyline [((0 : ℝ), 0), (2, 0)] 0 1 1 true =
        .error e) ↔
      (dirSubPath [((0 : ℝ), 0), (2, 0)] 0 true).length < 2 ∨
        totalSegLength (dirSubPath [((0 : ℝ), 0), (2, 0)] 0 true) <
          1 * (((1 : ℤ) : ℝ) - 1)) ∧
    (sampleAlongPolyline [((0 : ℝ), 0), (2, 0)] 0 1 1 true =
        .error (.valueError "Polyline length is shorter than required.") ↔
      2 ≤ (dirSubPath [((0 : ℝ), 0), (2, 0)] 0 true).length ∧
        totalSegLength (dirSubPath [((0 : ℝ), 0), (2, 0)] 0 true) <
          1 * (((1 : ℤ) : ℝ) - 1)) ∧
    (∀ ys, sampleAlongPolyline [((0 : ℝ), 0), (2, 0)] 0 1 1 true =
        .ok ys → (ys.length : ℤ) = 1)) :=
  ⟨⟨by simp, by norm_num, le_refl 1⟩,
    c3_sample_error_characterization [((0 : ℝ), 0), (2, 0)] 0 1 1 true
      (by simp) (by norm_num) (by norm_num) (le_refl 1)⟩

/-! ### Claim C7 -/

/-- C7 counterexample: a file whose two records carry the same coordinates
parses to a list containing the point `(1,1)` twice — `parse_txt_points`
does not deduplicate. -/
theorem c7_no_dedup_cex :
    parseTxtPoints [TxtLine.record [1, 1], TxtLine.record [1, 1]] =
      .ok [((1 : ℤ), (1 : ℤ)), (1, 1)] ∧
    ¬ ([((1 : ℤ), (1 : ℤ)), (1, 1)] : List IPoint).Nodup := by
  constructor
  · unfold parseTxtPoints
    rw [extractRecords_eq_filterMap]
    simp [recordPoint, pyRound_one]
  · simp

/-- C7 (amended): `parse_txt_points` performs no deduplication: a
successful parse returns exactly one point per valid record, in input
order, with duplicate coordinates preserved. -/
theorem c7_parse_preserves_records (ls : List TxtLine) (l : List IPoint)
    (h : parseTxtPoints ls = .ok l) :
    l = ls.filterMap recordPoint := by
  unfold parseTxtPoints at h
  rw [extractRecords_eq_filterMap] at h
  by_cases hemp : (ls.filterMap recordPoint).isEmpty
  · rw [if_pos hemp] at h
    exact absurd h (by simp)
  · rw [if_neg hemp] at h
    exact (Except.ok.inj h).symm

/-- C7 witness: the amended statement applied to a concrete two-record
file with duplicate coordinates. -/
theorem c7_witness :
    parseTxtPoints [TxtLine.record [0, 1], TxtLine.record [0, 1]] =
      .ok [((0 : ℤ), (1 : ℤ)), (0, 1)] ∧
    ([((0 : ℤ), (1 : ℤ)), (0, 1)] : List IPoint) =
      ([TxtLine.record [0, 1], TxtLine.record [0, 1]]).filterMap
        recordPoint := by
  have hparse : parseTxtPoints [TxtLine.record [0, 1], TxtLine.record [0, 1]] =
      .ok [((0 : ℤ), (1 : ℤ)), (0, 1)] := by
    unfold parseTxtPoints
    rw [extractRecords_eq_filterMap]
    simp [recordPoint, pyRound_zero, pyRound_one]
  exact ⟨hparse, c7_parse_preserves_records _ _ hparse⟩

/-! ### Claim C6 -/

theorem save_filterMap (bps : List RPoint) :
    ∀ k : ℕ,
      ((List.enumFrom k bps).map
          (fun ip => TxtLine.record [ip.2.1, ip.2.2, ((ip.1 + 1 : ℕ) : ℝ)])).filterMap
          recordPoint =
        bps.map (fun p => (pyRound p.1, pyRound p.2)) := by
  induction bps with
  | nil => intro k; simp
  | cons p t ih =>
    intro k
    show List.filterMap recordPoint
        (((k, p) :: List.enumFrom (k + 1) t).map
          (fun ip => TxtLine.record [ip.2.1, ip.2.2, ((ip.1 + 1 : ℕ) : ℝ)])) = _
    rw [List.map_cons, List.filterMap_cons]
    have hrec : recordPoint
        (TxtLine.record [p.1, p.2, ((k + 1 : ℕ) : ℝ)]) =
        some (pyRound p.1, pyRound p.2) := rfl
    rw [hrec, ih (k + 1), List.map_cons]

theorem parse_save_eq (r : Strategy2Result) (h : r.bendingPoints ≠ []) :
    parseTxtPoints (saveResultPointsTxt r) =
      .ok (r.bendingPoints.map (fun p => (pyRound p.1, pyRound p.2))) := by
  unfold parseTxtPoints saveResultPointsTxt
  rw [extractRecords_eq_filterMap]
  simp only [List.enum, List.filterMap_cons]
  have hrec : recordPoint TxtLine.comment = none := rfl
  rw [hrec, save_filterMap r.bendingPoints 0]
  have hne : ¬ (r.bendingPoints.map
      (fun p => (pyRound p.1, pyRound p.2))).isEmpty := by
    simp [List.isEmpty_iff, h]
  rw [if_neg hne]

/-- C6 counterexample: writing the bending point `(1/2, 0)` with
`save_result_points_txt` and re-parsing with `parse_txt_points` yields the
rounded point `(0, 0)`, not the original coordinate sequence — the
round-trip loses every fractional coordinate. -/
theorem c6_roundtrip_cex :
    parseTxtPoints (saveResultPointsTxt c6CexResult) =
      .ok [((0 : ℤ), (0 : ℤ))] ∧
    ¬ ([((0 : ℤ), (0 : ℤ))] : List IPoint).map toR =
        c6CexResult.bendingPoints := by
  constructor
  · rw [parse_save_eq c6CexResult (by simp [c6CexResult])]
    simp [c6CexResult, pyRound_half, pyRound_inv_two, pyRound_zero]
  · intro hcontra
    simp only [List.map_cons, List.map_nil, c6CexResult, toR] at hcontra
    have h1 := congrArg (fun l : List RPoint => (l.headD (0, 0)).1) hcontra
    norm_num at h1

/-- C6 (amended): the round-trip through `save_result_points_txt` and
`parse_txt_points` recovers the index-ordered sequence of per-coordinate
rounded bending points; it recovers the original sequence exactly when
every bending-point coordinate is an integer. -/
theorem c6_roundtrip_rounded (r : Strategy2Result)
    (h : r.bendingPoints ≠ []) :
    parseTxtPoints (saveResultPointsTxt r) =
      .ok (r.bendingPoints.map (fun p => (pyRound p.1, pyRound p.2))) ∧
    ((∀ p ∈ r.bendingPoints,
        (∃ a : ℤ, p.1 = (a : ℝ)) ∧ ∃ b : ℤ, p.2 = (b : ℝ)) →
      (r.bendingPoints.map (fun p => (pyRound p.1, pyRound p.2))).map toR =
        r.bendingPoints) := by
  refine ⟨parse_save_eq r h, fun hint => ?_⟩
  rw [List.map_map]
  have : ∀ p ∈ r.bendingPoints,
      (toR ∘ fun p => (pyRound p.1, pyRound p.2)) p = id p := by
    intro p hp
    obtain ⟨⟨a, ha⟩, ⟨b, hb⟩⟩ := hint p hp
    simp only [Function.comp_apply, toR, id_eq, ha, hb, pyRound_intCast]
    exact Prod.ext ha.symm hb.symm
  rw [List.map_congr_left this, List.map_id]

/-- C6 witness: the amended round-trip applied to a concrete result with
integer bending points. -/
theorem c6_witness :
    parseTxtPoints (saveResultPointsTxt c6WitnessResult) =
      .ok (c6WitnessResult.bendingPoints.map
        (fun p => (pyRound p.1, pyRound p.2))) ∧
    ((∀ p ∈ c6WitnessResult.bendingPoints,
        (∃ a : ℤ, p.1 = (a : ℝ)) ∧ ∃ b : ℤ, p.2 = (b : ℝ)) →
      (c6WitnessResult.bendingPoints.map
        (fun p => (pyRound p.1, pyRound p.2))).map toR =
        c6WitnessResult.bendingPoints) :=
  c6_roundtrip_rounded c6WitnessResult (by simp [c6WitnessResult])

/-! ### Claim C5 -/

theorem distR_0_0_7_24 : distR (toR ((0 : ℤ), 0)) (toR (7, 24)) = 25 := by
  unfold distR toR
  rw [show (((0 : ℤ) : ℝ) - ((7 : ℤ) : ℝ)) ^ 2 +
      (((0 : ℤ) : ℝ) - ((24 : ℤ) : ℝ)) ^ 2 = 625 by push_cast; ring]
  rw [show (625 : ℝ) = 25 ^ 2 by norm_num, Real.sqrt_sq (by norm_num)]

theorem pyInt_one : pyInt (1 : ℝ) = 1 := by
  unfold pyInt
  rw [if_pos (by norm_num), Int.floor_one]

/-- C5 counterexample: with distance(BSP, Mv) = 25 and sample_step = 1 the
diagnostics block emits zero `critical` findings (25 is below the critical
threshold max(20, 30) = 30), so it does not emit exactly one. -/
theorem c5_critical_cex :
    distR (toR ((0 : ℤ), 0)) (toR (7, 24)) = 25 ∧
    c5Cfg.sampleStep = 1 ∧
    (buildDiagnostics c5Cfg (0, 0) (7, 24) [(0, 0), (0, 1)]
        [(0, 0), (1, 0)] c5Path (0, 0)).countP
      (fun d => d.severity == "critical") = 0 := by
  refine ⟨distR_0_0_7_24, rfl, ?_⟩
  have hstep : c5Cfg.sampleStep = 1 := rfl
  have hcrit : ¬ (25 : ℝ) ≥ max 20 (c5Cfg.sampleStep * 30) := by
    rw [hstep]; rw [max_eq_right (by norm_num : (20 : ℝ) ≤ 1 * 30)]; norm_num
  have hwarn : (25 : ℝ) ≥ max 12 (c5Cfg.sampleStep * 15) := by
    rw [hstep]; rw [max_eq_right (by norm_num : (12 : ℝ) ≤ 1 * 15)]; norm_num
  have hfh : ¬ (([((0 : ℤ), 0), (0, 1)] : List IPoint).length : ℤ) ≤
      pyInt c5Cfg.FH := by
    have h1 : pyInt c5Cfg.FH = 1 := pyInt_one
    rw [h1]; norm_num
  have huh : ¬ (([((0 : ℤ), 0), (1, 0)] : List IPoint).length : ℤ) ≤
      pyInt c5Cfg.UH := by
    have h1 : pyInt c5Cfg.UH = 1 := pyInt_one
    rw [h1]; norm_num
  have hpath : ¬ ((c5Path.length : ℤ)) < max c5Cfg.PBL 100 := by
    have hlen : c5Path.length = 100 := by
      unfold c5Path; rw [List.length_map, List.length_range]
    have hmax : max c5Cfg.PBL 100 = 100 :=
      max_eq_right (by norm_num [c5Cfg])
    rw [hlen, hmax]
    omega
  simp only [buildDiagnostics]
  rw [distR_0_0_7_24]
  rw [if_neg hcrit, if_pos hwarn, if_neg hfh, if_neg huh, if_neg hpath]
  rfl

/-- C5 (amended): when distance(BSP, Mv) = 25 and sample_step = 1 and no
other rule fires, the diagnostics block emits exactly one finding: a
`warning` (not a `critical`) anchored at BSP, because 25 lies between the
warning threshold max(12, 15) = 15 and the critical threshold
max(20, 30) = 30. -/
theorem c5_distance25_warning (cfg : Strategy2Config) (bsp mv : IPoint)
    (fh uh tp : List IPoint) (low : IPoint)
    (hstep : cfg.sampleStep = 1)
    (hd : distR (toR bsp) (toR mv) = 25)
    (hfh : pyInt cfg.FH < (fh.length : ℤ))
    (huh : pyInt cfg.UH < (uh.length : ℤ))
    (htp : max cfg.PBL 100 ≤ (tp.length : ℤ)) :
    buildDiagnostics cfg bsp mv fh uh tp low =
      [⟨"warning",
        "Mv to BSP distance is above the preferred range. Check SX/SY and segment thresholds.",
        some bsp⟩] := by
  have hcrit : ¬ (25 : ℝ) ≥ max 20 (cfg.sampleStep * 30) := by
    rw [hstep, max_eq_right (by norm_num : (20 : ℝ) ≤ 1 * 30)]; norm_num
  have hwarn : (25 : ℝ) ≥ max 12 (cfg.sampleStep * 15) := by
    rw [hstep, max_eq_right (by norm_num : (12 : ℝ) ≤ 1 * 15)]; norm_num
  simp only [buildDiagnostics]
  rw [hd]
  rw [if_neg hcrit, if_pos hwarn, if_neg (not_le.mpr hfh),
    if_neg (not_le.mpr huh), if_neg (not_lt.mpr htp)]
  rfl

/-- C5 witness: the amended statement applied to the concrete scenario
(BSP at the origin, shifted marker at (7, 24), hundred-point path). -/
theorem c5_witness :
    (c5Cfg.sampleStep = 1 ∧
      distR (toR ((0 : ℤ), 0)) (toR (7, 24)) = 25 ∧
      pyInt c5Cfg.FH < (([((0 : ℤ), 0), (0, 1)] : List IPoint).length : ℤ) ∧
      pyInt c5Cfg.UH < (([((0 : ℤ), 0), (1, 0)] : List IPoint).length : ℤ) ∧
      max c5Cfg.PBL 100 ≤ ((c5Path.length : ℤ))) ∧
    buildDiagnostics c5Cfg ((0 : ℤ), 0) (7, 24) [(0, 0), (0, 1)]
        [(0, 0), (1, 0)] c5Path (5, 5) =
      [⟨"warning",
        "Mv to BSP distance is above the preferred range. Check SX/SY and segment thresholds.",
        some ((0 : ℤ), 0)⟩] := by
  have hfh : pyInt c5Cfg.FH <
      (([((0 : ℤ), 0), (0, 1)] : List IPoint).length : ℤ) := by
    rw [show pyInt c5Cfg.FH = 1 from pyInt_one]; norm_num
  have huh : pyInt c5Cfg.UH <
      (([((0 : ℤ), 0), (1, 0)] : List IPoint).length : ℤ) := by
    rw [show pyInt c5Cfg.UH = 1 from pyInt_one]; norm_num
  have htp : max c5Cfg.PBL 100 ≤ ((c5Path.length : ℤ)) := by
    have hlen : c5Path.length = 100 := by
      unfold c5Path; rw [List.length_map, List.length_range]
    have hmax : max c5Cfg.PBL 100 = 100 := by
      rw [show c5Cfg.PBL = (1 : ℤ) from rfl]
      exact max_eq_right (by norm_num)
    rw [hlen, hmax]
    norm_num
  exact ⟨⟨rfl, distR_0_0_7_24, hfh, huh, htp⟩,
    c5_distance25_warning c5Cfg ((0 : ℤ), 0) (7, 24) _ _ c5Path (5, 5) rfl
      distR_0_0_7_24 hfh huh htp⟩

/-! ### Claim C8 -/

theorem indexOf_self_spec {α : Type} [BEq α] [LawfulBEq α] {a : α}
    {l : List α} (h : a ∈ l) :
    l[l.indexOf a]? = some a ∧ l.indexOf a < l.length := by
  induction l with
  | nil => cases h
  | cons b t ih =>
    by_cases hba : b == a
    · have hidx : (b :: t).indexOf a = 0 := by
        unfold List.indexOf
        rw [List.findIdx_cons, hba]
        rfl
      refine ⟨?_, ?_⟩
      · rw [hidx]
        simpa using (eq_of_beq hba)
      · rw [hidx]; simp
    · have hmem : a ∈ t := by
        rcases List.mem_cons.mp h with h1 | h1
        · exact absurd (show (b == a) = true by rw [h1]; simp) hba
        · exact h1
      have hidx : (b :: t).indexOf a = t.indexOf a + 1 := by
        unfold List.indexOf
        rw [List.findIdx_cons]
        simp only [hba]
        rfl
      obtain ⟨ih1, ih2⟩ := ih hmem
      refine ⟨?_, ?_⟩
      · rw [hidx]
        simpa using ih1
      · rw [hidx, List.length_cons]
        omega

/-- C8: the sampling sub-path starts at BSP and proceeds strictly away from
TLSP — toward increasing path indices when BSP's index exceeds TLSP's,
toward decreasing indices when it is smaller, and on coincidence toward the
side with at least as many remaining points, increasing indices on a
tie. -/
theorem c8_sampling_direction (path : List IPoint) (bsp tlsp : IPoint)
    (hb : bsp ∈ path) (ht : tlsp ∈ path) :
    (chooseSamplingPath path (path.indexOf bsp)
        (path.indexOf tlsp)).head? = some bsp ∧
    (path.indexOf tlsp < path.indexOf bsp →
      chooseSamplingPath path (path.indexOf bsp) (path.indexOf tlsp) =
        path.drop (path.indexOf bsp)) ∧
    (path.indexOf bsp < path.indexOf tlsp →
      chooseSamplingPath path (path.indexOf bsp) (path.indexOf tlsp) =
        (path.take (path.indexOf bsp + 1)).reverse) ∧
    (path.indexOf bsp = path.indexOf tlsp →
      (path.indexOf bsp + 1 ≤ path.length - path.indexOf bsp →
        chooseSamplingPath path (path.indexOf bsp) (path.indexOf tlsp) =
          path.drop (path.indexOf bsp)) ∧
      (path.length - path.indexOf bsp < path.indexOf bsp + 1 →
        chooseSamplingPath path (path.indexOf bsp) (path.indexOf tlsp) =
          (path.take (path.indexOf bsp + 1)).reverse)) := by
  have hi : path.indexOf bsp < path.length := (indexOf_self_spec hb).2
  have hget : path[path.indexOf bsp]? = some bsp := (indexOf_self_spec hb).1
  have hdropHead : (path.drop (path.indexOf bsp)).head? = some bsp := by
    rw [List.head?_drop]; exact hget
  have htakeHead :
      ((path.take (path.indexOf bsp + 1)).reverse).head? = some bsp := by
    rw [List.head?_reverse, List.getLast?_eq_getElem?]
    have hlen : (path.take (path.indexOf bsp + 1)).length =
        path.indexOf bsp + 1 := by
      rw [List.length_take]; omega
    rw [hlen]
    simpa using (@List.getElem?_take_of_succ _ path
      (path.indexOf bsp)).trans hget
  unfold chooseSamplingPath
  split_ifs with h1 h2 h3
  · exact ⟨htakeHead, fun hc => absurd hc (by omega), fun _ => rfl,
      fun hc => absurd hc (by omega)⟩
  · exact ⟨hdropHead, fun _ => rfl, fun hc => absurd hc (by omega),
      fun hc => absurd hc (by omega)⟩
  · exact ⟨hdropHead, fun hc => absurd hc (by omega),
      fun hc => absurd hc (by omega),
      fun _ => ⟨fun _ => rfl, fun hc => absurd hc (by omega)⟩⟩
  · exact ⟨htakeHead, fun hc => absurd hc (by omega),
      fun hc => absurd hc (by omega),
      fun _ => ⟨fun hc => absurd hc (by omega), fun _ => rfl⟩⟩

/-- C8 witness: the direction rule applied to a concrete three-point path
with BSP at the end and TLSP at the start. -/
theorem c8_witness :
    (((2 : ℤ), (0 : ℤ)) ∈ ([((0 : ℤ), 0), (1, 0), (2, 0)] : List IPoint) ∧
      ((0 : ℤ), (0 : ℤ)) ∈ ([((0 : ℤ), 0), (1, 0), (2, 0)] : List IPoint)) ∧
    (chooseSamplingPath [((0 : ℤ), 0), (1, 0), (2, 0)]
        (([((0 : ℤ), 0), (1, 0), (2, 0)] : List IPoint).indexOf (2, 0))
        (([((0 : ℤ), 0), (1, 0), (2, 0)] : List IPoint).indexOf
          (0, 0))).head? = some ((2 : ℤ), (0 : ℤ)) := by
  have hb : ((2 : ℤ), (0 : ℤ)) ∈
      ([((0 : ℤ), 0), (1, 0), (2, 0)] : List IPoint) := by decide
  have ht : ((0 : ℤ), (0 : ℤ)) ∈
      ([((0 : ℤ), 0), (1, 0), (2, 0)] : List IPoint) := by decide
  exact ⟨⟨hb, ht⟩,
    (c8_sampling_direction [((0 : ℤ), 0), (1, 0), (2, 0)] (2, 0) (0, 0)
      hb ht).1⟩

/-! ### Sorting machinery for claims C4 and C9 -/

theorem pairDescRel_refl (a : ℕ × ℕ) : pairDescRel a a :=
  Or.inr ⟨rfl, le_refl a.2⟩

theorem lensEnum_length : ∀ (cs : List (List IPoint)) (k : ℕ),
    (lensEnum cs k).length = cs.length
  | [], _ => rfl
  | _ :: t, k => by
    simp only [lensEnum, List.length_cons, lensEnum_length t (k + 1)]

theorem mem_lensEnum {q : ℕ × ℕ} :
    ∀ (cs : List (List IPoint)) (k : ℕ), q ∈ lensEnum cs k →
      k ≤ q.2 ∧ q.2 - k < cs.length ∧ q.1 = (cs.getD (q.2 - k) []).length := by
  intro cs
  induction cs with
  | nil => intro k h; cases h
  | cons c t ih =>
    intro k h
    rcases List.mem_cons.mp h with h1 | h1
    · subst h1
      refine ⟨le_refl k, by simp, ?_⟩
      simp
    · obtain ⟨ha, hb, hc⟩ := ih (k + 1) h1
      refine ⟨by omega, by simp only [List.length_cons]; omega, ?_⟩
      rw [show q.2 - k = (q.2 - (k + 1)) + 1 by omega, List.getD_cons_succ]
      exact hc

theorem lensEnum_mem_of_lt :
    ∀ (cs : List (List IPoint)) (k j : ℕ), j < cs.length →
      ((cs.getD j []).length, k + j) ∈ lensEnum cs k := by
  intro cs
  induction cs with
  | nil => intro k j h; simp at h
  | cons c t ih =>
    intro k j h
    cases j with
    | zero => simp [lensEnum]
    | succ j' =>
      have hmem := ih (k + 1) j' (by simp only [List.length_cons] at h; omega)
      rw [List.getD_cons_succ, show k + (j' + 1) = (k + 1) + j' by omega]
      exact List.mem_cons_of_mem _ hmem

theorem lensEnum_nodup : ∀ (cs : List (List IPoint)) (k : ℕ),
    (lensEnum cs k).Nodup := by
  intro cs
  induction cs with
  | nil => intro k; exact List.nodup_nil
  | cons c t ih =>
    intro k
    refine List.nodup_cons.mpr ⟨?_, ih (k + 1)⟩
    intro hmem
    have := (mem_lensEnum t (k + 1) hmem).1
    omega

/-- Shared description of `pick_two_longest_lines`: the sorted
`(length, index)` list starts with two pairs, the function returns the
components at their indices, and the sorted list is a sorted,
duplicate-free permutation of the enumerated pairs. -/
theorem pickTwo_spec (cs : List (List IPoint)) (h2 : 2 ≤ cs.length) :
    ∃ p1 p2 rest,
      (lensEnum cs 0).insertionSort pairDescRel = p1 :: p2 :: rest ∧
      pickTwoLongestLines cs = .ok (cs.getD p1.2 [], cs.getD p2.2 []) ∧
      List.Perm (p1 :: p2 :: rest) (lensEnum cs 0) ∧
      List.Sorted pairDescRel (p1 :: p2 :: rest) ∧
      (p1 :: p2 :: rest).Nodup := by
  have hlen : ((lensEnum cs 0).insertionSort pairDescRel).length =
      cs.length := by
    rw [List.length_insertionSort, lensEnum_length]
  rcases hml : (lensEnum cs 0).insertionSort pairDescRel with
    _ | ⟨p1, _ | ⟨p2, rest⟩⟩
  · rw [hml] at hlen; simp at hlen; omega
  · rw [hml] at hlen; simp at hlen; omega
  · refine ⟨p1, p2, rest, rfl, ?_, ?_, ?_, ?_⟩
    · unfold pickTwoLongestLines
      rw [if_neg (by omega), hml]
    · rw [← hml]; exact List.perm_insertionSort _ _
    · rw [← hml]; exact List.sorted_insertionSort _ _
    · rw [← hml]
      exact ((List.perm_insertionSort pairDescRel (lensEnum cs 0)).nodup_iff).mpr
        (lensEnum_nodup cs 0)

/-- Two permuted lists that are both strictly descending on a key are
equal. -/
theorem eq_of_perm_of_strict_sorted {α : Type} (key : α → ℕ) :
    ∀ l₁ l₂ : List α, List.Perm l₁ l₂ →
      l₁.Pairwise (fun a b => key b < key a) →
      l₂.Pairwise (fun a b => key b < key a) → l₁ = l₂ := by
  intro l₁
  induction l₁ with
  | nil =>
    intro l₂ hp _ _
    exact (hp.symm.eq_nil).symm
  | cons a t ih =>
    intro l₂ hp h1 h2
    cases l₂ with
    | nil =>
      have := hp.eq_nil
      simp at this
    | cons b t₂ =>
      by_cases hab : a = b
      · subst hab
        have htail := hp.cons_inv
        rw [ih t₂ htail (List.pairwise_cons.mp h1).2
          (List.pairwise_cons.mp h2).2]
      · have hat2 : a ∈ t₂ := by
          rcases List.mem_cons.mp (hp.subset (List.mem_cons_self a t)) with
            h | h
          · exact absurd h hab
          · exact h
        have hbt : b ∈ t := by
          rcases List.mem_cons.mp (hp.symm.subset (List.mem_cons_self b t₂))
            with h | h
          · exact absurd h.symm hab
          · exact h
        have hk1 : key b < key a := (List.pairwise_cons.mp h1).1 b hbt
        have hk2 : key a < key b := (List.pairwise_cons.mp h2).1 a hat2
        omega

theorem map_getD_lensEnum (full : List (List IPoint)) :
    ∀ (cs : List (List IPoint)) (k : ℕ), full.drop k = cs →
      (lensEnum cs k).map (fun q : ℕ × ℕ => full.getD q.2 []) = cs := by
  intro cs
  induction cs with
  | nil => intro k _; rfl
  | cons c t ih =>
    intro k h
    have hhead : full.getD k [] = c := by
      have h1 : full[k]? = some c := by
        rw [← List.head?_drop, h]; rfl
      simp [h1]
    have htail : full.drop (k + 1) = t := by
      have h1 : full.drop (k + 1) = (full.drop k).drop 1 := by
        rw [List.drop_drop]
      rw [h1, h]
      rfl
    show (full.getD k []) :: (lensEnum t (k + 1)).map _ = c :: t
    rw [hhead, ih (k + 1) htail]

theorem pairwise_len_ne_getD {cs : List (List IPoint)}
    (hdist : cs.Pairwise (fun a b => a.length ≠ b.length)) :
    ∀ i j, i < cs.length → j < cs.length → i ≠ j →
      (cs.getD i []).length ≠ (cs.getD j []).length := by
  have hget := List.pairwise_iff_get.mp hdist
  intro i j hi hj hij
  rcases Nat.lt_or_ge i j with h | h
  · rw [List.getD_eq_getElem cs [] hi, List.getD_eq_getElem cs [] hj]
    have hne := hget ⟨i, hi⟩ ⟨j, hj⟩ h
    simpa [List.get_eq_getElem] using hne
  · have hlt : j < i := by omega
    rw [List.getD_eq_getElem cs [] hi, List.getD_eq_getElem cs [] hj]
    have hne := hget ⟨j, hj⟩ ⟨i, hi⟩ hlt
    simpa [List.get_eq_getElem] using hne.symm

/-! ### Claim C4 -/

/-- C4 counterexample: three singleton components all tie on point count;
the claim's first-seen rule would select components 0 and 1, but the code
(sorting `(count, index)` pairs descending) selects components 2 and 1 —
the selected first component is not the earliest-seen tied component. -/
theorem c4_tie_break_cex :
    pickTwoLongestLines [[((0 : ℤ), 0)], [(5, 5)], [(9, 9)]] =
      .ok ([((9 : ℤ), 9)], [((5 : ℤ), 5)]) ∧
    ([((9 : ℤ), 9)] : List IPoint) ≠ [((0 : ℤ), 0)] := by
  constructor
  · rfl
  · simp

/-- C4 (amended): `pick_two_longest_lines` returns the two components with
the largest point counts, but ties are broken by reverse input order: among
tied components the latest-seen (highest index) one is ranked first.  The
returned pair sits at positions `i, j` such that `(count, i)` is
lexicographically maximal over all positions and `(count, j)` is maximal
over the remaining positions. -/
theorem c4_pick_two_largest_latest_tie (cs : List (List IPoint))
    (h2 : 2 ≤ cs.length) :
    ∃ i j : ℕ, i < cs.length ∧ j < cs.length ∧ i ≠ j ∧
      pickTwoLongestLines cs = .ok (cs.getD i [], cs.getD j []) ∧
      (∀ k, k < cs.length →
        pairDescRel ((cs.getD i []).length, i) ((cs.getD k []).length, k)) ∧
      (∀ k, k < cs.length → k ≠ i →
        pairDescRel ((cs.getD j []).length, j) ((cs.getD k []).length, k)) := by
  obtain ⟨p1, p2, rest, hml, hpick, hperm, hsorted, hnodup⟩ :=
    pickTwo_spec cs h2
  have hp1mem : p1 ∈ lensEnum cs 0 := hperm.subset (by simp)
  have hp2mem : p2 ∈ lensEnum cs 0 := hperm.subset (by simp)
  obtain ⟨-, hp1lt, hp1len⟩ := mem_lensEnum cs 0 hp1mem
  obtain ⟨-, hp2lt, hp2len⟩ := mem_lensEnum cs 0 hp2mem
  rw [Nat.sub_zero] at hp1lt hp1len hp2lt hp2len
  have hp1pair : ((cs.getD p1.2 []).length, p1.2) = p1 := by
    rw [← hp1len]
  have hp2pair : ((cs.getD p2.2 []).length, p2.2) = p2 := by
    rw [← hp2len]
  have hne : p1.2 ≠ p2.2 := by
    intro hcontra
    have hval : p1 = p2 := by
      have h1 : p1.1 = p2.1 := by rw [hp1len, hp2len, hcontra]
      exact Prod.ext h1 hcontra
    have := (List.nodup_cons.mp hnodup).1
    rw [hval] at this
    exact this (List.mem_cons_self p2 rest)
  refine ⟨p1.2, p2.2, hp1lt, hp2lt, hne, hpick, ?_, ?_⟩
  · intro k hk
    have hkmem : ((cs.getD k []).length, k) ∈ lensEnum cs 0 := by
      have := lensEnum_mem_of_lt cs 0 k hk
      simpa using this
    rw [hp1pair]
    rcases List.mem_cons.mp (hperm.mem_iff.mpr hkmem) with h | h
    · rw [h]; exact pairDescRel_refl p1
    · exact (List.pairwise_cons.mp hsorted).1 _ h
  · intro k hk hki
    have hkmem : ((cs.getD k []).length, k) ∈ lensEnum cs 0 := by
      have := lensEnum_mem_of_lt cs 0 k hk
      simpa using this
    rw [hp2pair]
    have hknp1 : ((cs.getD k []).length, k) ≠ p1 := by
      intro hcontra
      exact hki (congrArg Prod.snd hcontra)
    rcases List.mem_cons.mp (hperm.mem_iff.mpr hkmem) with h | h
    · exact absurd h hknp1
    · rcases List.mem_cons.mp h with h1 | h1
      · rw [h1]; exact pairDescRel_refl p2
      · exact (List.pairwise_cons.mp (List.pairwise_cons.mp hsorted).2).1 _ h1

/-- C4 witness: the amended selection property applied to a concrete
two-component list. -/
theorem c4_witness :
    2 ≤ ([[((0 : ℤ), 0)], [(1, 1), (2, 2)]] : List (List IPoint)).length ∧
    (∃ i j : ℕ,
      i < ([[((0 : ℤ), 0)], [(1, 1), (2, 2)]] : List (List IPoint)).length ∧
      j < ([[((0 : ℤ), 0)], [(1, 1), (2, 2)]] : List (List IPoint)).length ∧
      i ≠ j ∧
      pickTwoLongestLines [[((0 : ℤ), 0)], [(1, 1), (2, 2)]] =
        .ok (([[((0 : ℤ), 0)], [(1, 1), (2, 2)]] :
          List (List IPoint)).getD i [],
          ([[((0 : ℤ), 0)], [(1, 1), (2, 2)]] :
            List (List IPoint)).getD j []) ∧
      (∀ k, k < ([[((0 : ℤ), 0)], [(1, 1), (2, 2)]] :
          List (List IPoint)).length →
        pairDescRel
          ((([[((0 : ℤ), 0)], [(1, 1), (2, 2)]] :
            List (List IPoint)).getD i []).length, i)
          ((([[((0 : ℤ), 0)], [(1, 1), (2, 2)]] :
            List (List IPoint)).getD k []).length, k)) ∧
      (∀ k, k < ([[((0 : ℤ), 0)], [(1, 1), (2, 2)]] :
          List (List IPoint)).length → k ≠ i →
        pairDescRel
          ((([[((0 : ℤ), 0)], [(1, 1), (2, 2)]] :
            List (List IPoint)).getD j []).length, j)
          ((([[((0 : ℤ), 0)], [(1, 1), (2, 2)]] :
            List (List IPoint)).getD k []).length, k))) :=
  ⟨by norm_num,
    c4_pick_two_largest_latest_tie [[((0 : ℤ), 0)], [(1, 1), (2, 2)]]
      (by norm_num)⟩

/-! ### Claim C9 -/

/-- C9 counterexample: on three tied singleton components,
`pick_two_longest_lines` selects components 2 and 1 while
`pick_longest_components` (a stable sort) keeps components 0 and 1, so the
selected pair does not equal the first two of
`pick_longest_components(components, 2)` under ties. -/
theorem c9_refinement_cex :
    pickTwoLongestLines [[((0 : ℤ), 0)], [(1, 1)], [(2, 2)]] =
      .ok ([((2 : ℤ), 2)], [((1 : ℤ), 1)]) ∧
    pickLongestComponents [[((0 : ℤ), 0)], [(1, 1)], [(2, 2)]] 2 =
      [[((0 : ℤ), 0)], [((1 : ℤ), 1)]] ∧
    ([((2 : ℤ), 2)] : List IPoint) ≠ [((0 : ℤ), 0)] := by
  refine ⟨rfl, rfl, by simp⟩

/-- C9 (amended): `summarize_longest_two_lines` always describes exactly
the two components selected by `pick_longest_components(components, 2)`
(their lowest point and point count); and whenever the components have
pairwise distinct point counts — in particular with no ties — the pair
returned by `pick_two_longest_lines` equals, in rank order, the first two
components of `pick_longest_components(components, 2)`. -/
theorem c9_pick_refinement (cs : List (List IPoint)) :
    summarizeLongestTwoLines cs =
      (pickLongestComponents cs 2).map (fun c => (maxByY c, c.length)) ∧
    (2 ≤ cs.length →
      cs.Pairwise (fun a b => a.length ≠ b.length) →
      ∃ A B, pickTwoLongestLines cs = .ok (A, B) ∧
        pickLongestComponents cs 2 = [A, B]) := by
  constructor
  · unfold summarizeLongestTwoLines pickLongestComponents
    by_cases h : cs.isEmpty
    · rw [if_pos h, if_pos h]; rfl
    · rw [if_neg h, if_neg h]
  · intro h2 hdist
    obtain ⟨p1, p2, rest, hml, hpick, hperm, hsorted, hnodup⟩ :=
      pickTwo_spec cs h2
    have hpermC : List.Perm (cs.insertionSort lenDescRel) cs :=
      List.perm_insertionSort _ _
    have hsortC : List.Sorted lenDescRel (cs.insertionSort lenDescRel) :=
      List.sorted_insertionSort _ _
    have hdistC : (cs.insertionSort lenDescRel).Pairwise
        (fun a b => a.length ≠ b.length) :=
      (List.Perm.pairwise_iff (fun h => Ne.symm h) hpermC).mpr hdist
    have hstrictC : (cs.insertionSort lenDescRel).Pairwise
        (fun a b : List IPoint => b.length < a.length) :=
      List.Pairwise.imp
        (fun hab => lt_of_le_of_ne hab.1 (fun hq => hab.2 hq.symm))
        (List.Pairwise.and hsortC hdistC)
    have hmapL : (lensEnum cs 0).map (fun q : ℕ × ℕ => cs.getD q.2 []) =
        cs := map_getD_lensEnum cs cs 0 (by simp)
    have hmsperm : List.Perm
        ((p1 :: p2 :: rest).map (fun q : ℕ × ℕ => cs.getD q.2 [])) cs := by
      have h1 := List.Perm.map (fun q : ℕ × ℕ => cs.getD q.2 []) hperm
      rw [hmapL] at h1
      exact h1
    have hmem2 : ∀ q ∈ (p1 :: p2 :: rest),
        q.2 < cs.length ∧ q.1 = (cs.getD q.2 []).length := by
      intro q hq
      obtain ⟨-, h1, hq2⟩ := mem_lensEnum cs 0 (hperm.subset hq)
      rw [Nat.sub_zero] at h1 hq2
      exact ⟨h1, hq2⟩
    have hstrictPairs : (p1 :: p2 :: rest).Pairwise
        (fun q r : ℕ × ℕ =>
          (cs.getD r.2 []).length < (cs.getD q.2 []).length) := by
      refine List.Pairwise.imp_of_mem ?_ (List.Pairwise.and hsorted hnodup)
      intro q r hq hr hqr
      obtain ⟨hpair, hne⟩ := hqr
      obtain ⟨hqlt, hqlen⟩ := hmem2 q hq
      obtain ⟨hrlt, hrlen⟩ := hmem2 r hr
      rcases hpair with h | ⟨heq, _⟩
      · rw [← hqlen, ← hrlen]; exact h
      · by_cases hsnd : q.2 = r.2
        · exact absurd (Prod.ext heq.symm hsnd) hne
        · exact absurd
            (show (cs.getD q.2 []).length = (cs.getD r.2 []).length by
              rw [← hqlen, ← hrlen, heq])
            (pairwise_len_ne_getD hdist q.2 r.2 hqlt hrlt hsnd)
    have hstrictMapped :
        ((p1 :: p2 :: rest).map (fun q : ℕ × ℕ => cs.getD q.2 [])).Pairwise
          (fun A B : List IPoint => B.length < A.length) :=
      List.pairwise_map.mpr hstrictPairs
    have hunique : (p1 :: p2 :: rest).map (fun q : ℕ × ℕ => cs.getD q.2 []) =
        cs.insertionSort lenDescRel :=
      eq_of_perm_of_strict_sorted List.length _ _
        (hmsperm.trans hpermC.symm) hstrictMapped hstrictC
    refine ⟨cs.getD p1.2 [], cs.getD p2.2 [], hpick, ?_⟩
    unfold pickLongestComponents
    have hnotEmpty : ¬ cs.isEmpty := by
      simp only [List.isEmpty_iff]
      intro hcontra
      rw [hcontra] at h2
      simp at h2
    rw [if_neg hnotEmpty, ← hunique]
    rfl

/-- C9 witness: the refinement applied to a concrete component list with
pairwise distinct point counts. -/
theorem c9_witness :
    (2 ≤ ([[((0 : ℤ), 0)], [(1, 1), (2, 2)]] : List (List IPoint)).length ∧
      ([[((0 : ℤ), 0)], [(1, 1), (2, 2)]] : List (List IPoint)).Pairwise
        (fun a b => a.length ≠ b.length)) ∧
    (∃ A B, pickTwoLongestLines [[((0 : ℤ), 0)], [(1, 1), (2, 2)]] =
        .ok (A, B) ∧
      pickLongestComponents [[((0 : ℤ), 0)], [(1, 1), (2, 2)]] 2 =
        [A, B]) :=
  ⟨⟨by norm_num, by decide⟩,
    (c9_pick_refinement [[((0 : ℤ), 0)], [(1, 1), (2, 2)]]).2 (by norm_num)
      (by decide)⟩

/-! ### Error-shape lemmas for claims C2 and C10 -/

theorem pickTwo_error_shape {cs : List (List IPoint)} {e : PyError}
    (h : pickTwoLongestLines cs = .error e) :
    ∃ m, e = .strategy2Error m := by
  simp only [pickTwoLongestLines] at h
  split at h
  · exact ⟨_, (Except.error.inj h).symm⟩
  · split at h
    · exact absurd h (by simp)
    · exact ⟨_, (Except.error.inj h).symm⟩

theorem parse_error_shape {ls : List TxtLine} {e : PyError}
    (h : parseTxtPoints ls = .error e) :
    e = .strategy2Error "No valid coordinates were found in the input TXT file." := by
  simp only [parseTxtPoints] at h
  split at h
  · exact (Except.error.inj h).symm
  · exact absurd h (by simp)

theorem pyIndex_error_shape {l : List IPoint} {a : IPoint} {e : PyError}
    (h : pyIndex l a = .error e) : ∃ m, e = .valueError m := by
  simp only [pyIndex] at h
  split at h
  · exact absurd h (by simp)
  · exact ⟨_, (Except.error.inj h).symm⟩

theorem findTlsp_error_shape {comp : List IPoint} {e : PyError}
    (h : findTlsp comp = .error e) : ∃ m, e = .strategy2Error m := by
  simp only [findTlsp] at h
  split_ifs at h <;>
    first
      | exact ⟨_, (Except.error.inj h).symm⟩
      | exact absurd h (by simp)

theorem findBsp_error_shape {path : List IPoint} {mv : IPoint} {e : PyError}
    (h : findBsp path mv = .error e) : ∃ m, e = .strategy2Error m := by
  simp only [findBsp] at h
  split at h
  · exact ⟨_, (Except.error.inj h).symm⟩
  · exact absurd h (by simp)

theorem findFH_error_shape {path : List IPoint} {fh uh : ℝ} {e : PyError}
    (h : findFrontHeadAndUpperHead path fh uh = .error e) :
    (∃ m, e = .strategy2Error m) ∨ (∃ m, e = .valueError m) := by
  simp only [findFrontHeadAndUpperHead] at h
  split at h
  · exact Or.inl ⟨_, (Except.error.inj h).symm⟩
  · split at h
    next e1 heq =>
      obtain ⟨m, hm⟩ := pyIndex_error_shape heq
      exact Or.inr ⟨m, by rw [← Except.error.inj h, hm]⟩
    next idx heq =>
      split at h
      · exact Or.inl ⟨_, (Except.error.inj h).symm⟩
      · exact absurd h (by simp)

theorem sample_error_shape {pts : List RPoint} {i : ℕ} {n : ℤ} {st : ℝ}
    {fw : Bool} {e : PyError}
    (h : sampleAlongPolyline pts i n st fw = .error e) :
    ∃ m, e = .valueError m := by
  simp only [sampleAlongPolyline] at h
  split_ifs at h <;>
    first
      | exact ⟨_, (Except.error.inj h).symm⟩
      | exact absurd h (by simp)

/-! ### Claim C2 (amended) -/

/-- The taxonomy part of C2: the pipeline only ever returns the single
type `Strategy2Error` or geometry's `ValueError`, never a
condition-specific error type. -/
theorem run_error_shape (points : List IPoint) (cfg : Strategy2Config)
    (e : PyError) (h : runStrategy2OnPoints points cfg = .error e) :
    (∃ m, e = .strategy2Error m) ∨ (∃ m, e = .valueError m) := by
  simp only [runStrategy2OnPoints] at h
  split at h
  next e1 heq =>
    obtain ⟨m, hm⟩ := pickTwo_error_shape heq
    exact Or.inl ⟨m, by rw [← Except.error.inj h, hm]⟩
  next c1 c2 heq =>
    split at h
    next e1 heq2 =>
      obtain ⟨m, hm⟩ := findTlsp_error_shape heq2
      exact Or.inl ⟨m, by rw [← Except.error.inj h, hm]⟩
    next tlsp path heq2 =>
      split at h
      next e1 heq3 =>
        rcases findFH_error_shape heq3 with ⟨m, hm⟩ | ⟨m, hm⟩
        · exact Or.inl ⟨m, by rw [← Except.error.inj h, hm]⟩
        · exact Or.inr ⟨m, by rw [← Except.error.inj h, hm]⟩
      next fh uh heq3 =>
        split at h
        next e1 heq4 =>
          obtain ⟨m, hm⟩ := findBsp_error_shape heq4
          exact Or.inl ⟨m, by rw [← Except.error.inj h, hm]⟩
        next bsp heq4 =>
          split at h
          next e1 heq5 =>
            obtain ⟨m, hm⟩ := pyIndex_error_shape heq5
            exact Or.inr ⟨m, by rw [← Except.error.inj h, hm]⟩
          next bspIdx heq5 =>
            split at h
            next e1 heq6 =>
              obtain ⟨m, hm⟩ := pyIndex_error_shape heq6
              exact Or.inr ⟨m, by rw [← Except.error.inj h, hm]⟩
            next tlspIdx heq6 =>
              split at h
              next e1 heq7 =>
                have heq8 : sampleAlongPolyline
                    ((chooseSamplingPath path bspIdx tlspIdx).map toR) 0
                    cfg.PBL cfg.sampleStep true = .error e1 := heq7
                obtain ⟨m, hm⟩ := sample_error_shape heq8
                exact Or.inr ⟨m, by rw [← Except.error.inj h, hm]⟩
              next bps heq7 =>
                exact absurd h (by simp)

/-- C2 (amended): each listed failure condition raises the single
`Strategy2Error` type (distinguished only by message) rather than its own
type; an error from the contour-selection stage propagates unchanged
through `run_strategy2_on_points` (no stage catches or suppresses it); and
every pipeline error is a `Strategy2Error` or geometry's `ValueError`. -/
theorem c2_single_error_type :
    (∀ comps : List (List IPoint), comps.length < 2 →
      pickTwoLongestLines comps =
        .error (.strategy2Error "At least two connected line components are required.")) ∧
    (∀ (ls : List TxtLine) (e : PyError), parseTxtPoints ls = .error e →
      e = .strategy2Error "No valid coordinates were found in the input TXT file.") ∧
    (∀ (points : List IPoint) (cfg : Strategy2Config) (e : PyError),
      pickTwoLongestLines (findConnectedComponents points) = .error e →
      runStrategy2OnPoints points cfg = .error e) ∧
    (∀ (points : List IPoint) (cfg : Strategy2Config) (e : PyError),
      runStrategy2OnPoints points cfg = .error e →
      (∃ m, e = .strategy2Error m) ∨ (∃ m, e = .valueError m)) := by
  refine ⟨?_, ?_, ?_, run_error_shape⟩
  · intro comps h
    unfold pickTwoLongestLines
    rw [if_pos h]
  · intro ls e h
    exact parse_error_shape h
  · intro points cfg e h
    simp only [runStrategy2OnPoints]
    rw [h]

/-- C2 witness: the amended statement applied to a concrete one-component
list and to a concrete empty parse. -/
theorem c2_witness :
    ([[((0 : ℤ), 0)]] : List (List IPoint)).length < 2 ∧
    pickTwoLongestLines [[((0 : ℤ), 0)]] =
      .error (.strategy2Error "At least two connected line components are required.") :=
  ⟨by norm_num, c2_single_error_type.1 [[((0 : ℤ), 0)]] (by norm_num)⟩

/-! ### Claim C10 -/

theorem ifEmpty_ne_nil (dd : List DiagnosticItem) (inf : DiagnosticItem) :
    (if dd.isEmpty then [inf] else dd) ≠ [] := by
  by_cases hc : dd.isEmpty
  · rw [if_pos hc]; simp
  · rw [if_neg hc]
    simpa [List.isEmpty_iff] using hc

theorem buildDiagnostics_ne_nil (cfg : Strategy2Config)
    (bsp mvShifted : IPoint) (fh uh tp : List IPoint) (low : IPoint) :
    buildDiagnostics cfg bsp mvShifted fh uh tp low ≠ [] := by
  simp only [buildDiagnostics]
  exact ifEmpty_ne_nil _ _

theorem run_ok_diagnostics {points : List IPoint} {cfg : Strategy2Config}
    {r : Strategy2Result} (h : runStrategy2OnPoints points cfg = .ok r) :
    r.diagnostics ≠ [] := by
  simp only [runStrategy2OnPoints] at h
  repeat' split at h
  all_goals cases h
  exact buildDiagnostics_ne_nil _ _ _ _ _ _ _

/-- C10: for every successful pipeline run the diagnostics list is
non-empty: when no distance, run-length or path-length rule fires, a single
info all-clear entry is synthesized, so the caller always receives at least
one finding. -/
theorem c10_diagnostics_nonempty (points : List IPoint)
    (cfg : Strategy2Config) :
    match runStrategy2OnPoints points cfg with
    | .error _ => True
    | .ok r => r.diagnostics ≠ [] := by
  cases hrun : runStrategy2OnPoints points cfg with
  | error e => trivial
  | ok r => exact run_ok_diagnostics hrun

end VirtualMarker
